import Mathlib

/-
Verification of the Issue Lifecycle & Book Production subsystem
(Tendayship backend). Shallow embedding of the Python sources:

  backend/app/services/deadline_service.py   (DeadlineService)
  backend/app/models/family.py               (DeadlineType)
  backend/app/models/issue.py                (IssueStatus)
  backend/app/models/book.py                 (ProductionStatus)
  backend/app/crud/issue_crud.py             (IssueCRUD)
  backend/app/crud/post_crud.py              (PostCRUD)
  backend/app/api/routes/issues.py           (create_new_issue)
  backend/app/api/routes/posts.py            (create_post)
  backend/app/workers/deadline_worker.py     (DeadlineWorker)
  backend/app/workers/pdf_worker.py          (PDFWorker)
  backend/app/services/pdf_service.py        (PDFGenerationService)
  backend/app/utils/pdf_utils.py             (FamilyNewsPDFGenerator)

Dates follow Python's `datetime.date` (proleptic Gregorian calendar,
`weekday()` with Monday = 0 .. Sunday = 6, lexicographic comparison of
(year, month, day)).  Machine-level details that no claim depends on
(UUIDs, timezone-aware timestamps, SQL sessions) are modelled as plain
naturals and in-memory lists of records.
-/

/-- Calendar date in the style of Python `datetime.date`: a year,
a month (1-12) and a day of month. -/
structure PyDate where
  year : Nat
  month : Nat
  day : Nat
deriving DecidableEq, Repr

/-- Python `calendar.isleap` / the leap-year rule used by `datetime`. -/
def isLeapYear (y : Nat) : Bool :=
  y % 4 == 0 && (y % 100 != 0 || y % 400 == 0)

/-- Number of days in a month, as in Python's `calendar.monthrange`. -/
def daysInMonth (y m : Nat) : Nat :=
  if m == 2 then (if isLeapYear y then 29 else 28)
  else if m == 4 || m == 6 || m == 9 || m == 11 then 30
  else 31

/-- Days in the months strictly before month `m` of year `y`. -/
def daysBeforeMonth (y m : Nat) : Nat :=
  (List.range (m - 1)).foldl (fun acc k => acc + daysInMonth y (k + 1)) 0

/-- Python `date.toordinal`: day count in the proleptic Gregorian
calendar with `0001-01-01` mapping to ordinal 1. -/
def toordinal (dt : PyDate) : Nat :=
  365 * (dt.year - 1) + (dt.year - 1) / 4 - (dt.year - 1) / 100 + (dt.year - 1) / 400
    + daysBeforeMonth dt.year dt.month + dt.day

/-- Python `date.weekday`: Monday = 0 .. Sunday = 6. -/
def pyWeekday (dt : PyDate) : Nat := (toordinal dt + 6) % 7

/-- Python date comparison `a <= b` (lexicographic on year, month, day). -/
def dateLe (a b : PyDate) : Prop :=
  a.year < b.year ∨ (a.year = b.year ∧
    (a.month < b.month ∨ (a.month = b.month ∧ a.day ≤ b.day)))

/-- Python date comparison `a < b` (lexicographic on year, month, day). -/
def dateLt (a b : PyDate) : Prop :=
  a.year < b.year ∨ (a.year = b.year ∧
    (a.month < b.month ∨ (a.month = b.month ∧ a.day < b.day)))

instance (a b : PyDate) : Decidable (dateLe a b) := by
  unfold dateLe; infer_instance

instance (a b : PyDate) : Decidable (dateLt a b) := by
  unfold dateLt; infer_instance

/-- A `PyDate` that Python's `date` constructor would accept. -/
def ValidDate (dt : PyDate) : Prop :=
  1 ≤ dt.year ∧ 1 ≤ dt.month ∧ dt.month ≤ 12 ∧
    1 ≤ dt.day ∧ dt.day ≤ daysInMonth dt.year dt.month

instance (dt : PyDate) : Decidable (ValidDate dt) := by
  unfold ValidDate; infer_instance

/-- Month-rollover loop of date addition, structurally recursive on an
explicit fuel (each step strictly decreases the remaining day count, so
`k + 1` units of fuel always suffice — see `addDays`). -/
def addDaysFuel : Nat → PyDate → Nat → PyDate
  | 0, dt, _ => dt
  | fuel + 1, dt, k =>
    if k = 0 then dt
    else if dt.day + k ≤ daysInMonth dt.year dt.month then
      ⟨dt.year, dt.month, dt.day + k⟩
    else
      let rest := k - (daysInMonth dt.year dt.month - dt.day) - 1
      if dt.month < 12 then addDaysFuel fuel ⟨dt.year, dt.month + 1, 1⟩ rest
      else addDaysFuel fuel ⟨dt.year + 1, 1, 1⟩ rest

/-- Python `date + timedelta(days=k)`: advance a date by `k` days,
rolling over month and year boundaries. -/
def addDays (dt : PyDate) (k : Nat) : PyDate := addDaysFuel (k + 1) dt k

/-- The `DeadlineType` enum of `backend/app/models/family.py`
(lines 10-13): its only members are `SECOND_SUNDAY` and `FOURTH_SUNDAY`. -/
inductive DeadlineType where
  | SECOND_SUNDAY
  | FOURTH_SUNDAY
deriving DecidableEq, Repr

/-- Python attribute lookup `DeadlineType.<name>` on the enum of
`models/family.py`: member access by name, `none` when the enum has no
such member (Python raises `AttributeError` in that case). -/
def deadlineTypeMember : String → Option DeadlineType
  | "SECOND_SUNDAY" => some .SECOND_SUNDAY
  | "FOURTH_SUNDAY" => some .FOURTH_SUNDAY
  | _ => none

/-- Python exceptions that the embedded code can raise. -/
inductive PyErr where
  | valueError
  | attributeError
  | indexError
deriving DecidableEq, Repr

/-- `DeadlineService._get_nth_sunday_of_month`
(`services/deadline_service.py` lines 26-61), with explicit fuel for the
self-recursion into the following month (`none` only on fuel
exhaustion; two units of fuel always suffice, see the C7 theorem). -/
def getNthSundayOfMonth : Nat → PyDate → Nat → Option PyDate
  | 0, _, _ => none
  | fuel + 1, reference_date, week_number =>
    let year := reference_date.year
    let month := reference_date.month
    let first_day : PyDate := ⟨year, month, 1⟩
    let first_weekday := pyWeekday first_day
    let days_to_first_sunday := (6 - first_weekday) % 7
    let first_sunday := addDays first_day days_to_first_sunday
    let nth_sunday := addDays first_sunday (7 * (week_number - 1))
    let next_month := if month < 12 then month + 1 else 1
    let next_year := if month < 12 then year else year + 1
    if nth_sunday.month ≠ month then
      getNthSundayOfMonth fuel ⟨next_year, next_month, 1⟩ week_number
    else if dateLe nth_sunday reference_date then
      getNthSundayOfMonth fuel ⟨next_year, next_month, 1⟩ week_number
    else some nth_sunday

/-- `DeadlineService.calculate_next_deadline`
(`services/deadline_service.py` lines 10-24).  The source compares its
argument against `DeadlineType.SECOND_WEEK` and `DeadlineType.FOURTH_WEEK`;
the `DeadlineType` imported there (from `models/family.py`) has only the
members `SECOND_SUNDAY` and `FOURTH_SUNDAY`, so the very first attribute
access raises `AttributeError`.  The member lookups are embedded
explicitly so that this behaviour is visible. -/
def calculateNextDeadline (deadline_type : DeadlineType) (reference_date : PyDate) :
    Except PyErr PyDate :=
  match deadlineTypeMember "SECOND_WEEK" with
  | none => .error .attributeError
  | some m =>
    if deadline_type = m then
      match getNthSundayOfMonth 100 reference_date 2 with
      | some d => .ok d
      | none => .error .valueError
    else
      match deadlineTypeMember "FOURTH_WEEK" with
      | none => .error .attributeError
      | some m' =>
        if deadline_type = m' then
          match getNthSundayOfMonth 100 reference_date 4 with
          | some d => .ok d
          | none => .error .valueError
        else .error .valueError

/-- `DeadlineService.is_deadline_passed` (`deadline_service.py`
lines 69-72): `date.today() > deadline_date`, with "today" explicit. -/
def isDeadlinePassed (deadline_date today : PyDate) : Prop :=
  dateLt deadline_date today

instance (a b : PyDate) : Decidable (isDeadlinePassed a b) := by
  unfold isDeadlinePassed; infer_instance

/-- The `IssueStatus` enum of `models/issue.py` (lines 8-12). -/
inductive IssueStatus where
  | OPEN
  | CLOSED
  | PUBLISHED
deriving DecidableEq, Repr

/-- The `ProductionStatus` enum of `models/book.py` (lines 9-14). -/
inductive ProductionStatus where
  | PENDING
  | IN_PROGRESS
  | COMPLETED
  | FAILED
deriving DecidableEq, Repr

/-- An `issues` row (`models/issue.py`).  UUIDs and timestamps are
naturals; `closed_at`/`published_at`/`updated_at` are omitted because no
claim reads them. -/
structure IssueRec where
  id : Nat
  group_id : Nat
  issue_number : Nat
  deadline_date : PyDate
  status : IssueStatus
  created_at : Nat
deriving DecidableEq, Repr

/-- A `posts` row (`models/post.py`): free text plus up to four image
URL references. -/
structure PostRec where
  id : Nat
  issue_id : Nat
  author_id : Nat
  content : String
  image_urls : List String
  created_at : Nat
deriving DecidableEq, Repr

/-- A `books` row (`models/book.py`): at most one per issue, carrying
the artifact reference (`pdf_url`) and the production state.  Delivery
fields are omitted because no claim reads them. -/
structure BookRec where
  id : Nat
  issue_id : Nat
  pdf_url : Option String
  production_status : ProductionStatus
deriving DecidableEq, Repr

/-- The record store: the `issues`, `posts` and `books` tables. -/
structure DB where
  issues : List IssueRec
  posts : List PostRec
  books : List BookRec
deriving DecidableEq, Repr

/-- The empty record store. -/
def dbEmpty : DB := ⟨[], [], []⟩

/-- The query issued by `IssueCRUD.get` (`issue_crud.py` lines 31-40):
`select(Issue).where(Issue.id == id)`, first row. -/
def findIssue (db : DB) (id : Nat) : Option IssueRec :=
  db.issues.find? (fun i => i.id == id)

/-- The query issued by `BookCRUD.get_by_issue_id` (`book_crud.py`
lines 14-28): `select(Book).where(Book.issue_id == issue_id)`, first row. -/
def findBookByIssue (db : DB) (issue_id : Nat) : Option BookRec :=
  db.books.find? (fun b => b.issue_id == issue_id)

/-- `IssueCRUD.create` (`issue_crud.py` lines 10-29): inserts a new
issue row with `status=IssueStatus.OPEN` hard-coded, taking `group_id`,
`issue_number` and `deadline_date` from `obj_in`.  The row id and the
`created_at` timestamp are supplied by the environment. -/
def issueCrudCreate (db : DB) (group_id issue_number : Nat) (deadline_date : PyDate)
    (newId now : Nat) : DB × IssueRec :=
  let row : IssueRec :=
    ⟨newId, group_id, issue_number, deadline_date, .OPEN, now⟩
  ({db with issues := db.issues ++ [row]}, row)

/-- `IssueCRUD.get_current_issue` (`issue_crud.py` lines 42-60), fault-free
path: `select(Issue)` filtered on the group and `status == OPEN`,
`ORDER BY created_at DESC LIMIT 1` — the most recently created OPEN
issue of the group (first-wins on equal timestamps). -/
def getCurrentIssue (db : DB) (group_id : Nat) : Option IssueRec :=
  (db.issues.filter (fun i => i.group_id == group_id && i.status == IssueStatus.OPEN)).foldl
    (fun acc i =>
      match acc with
      | none => some i
      | some j => if j.created_at < i.created_at then some i else some j)
    none

/-- `IssueCRUD.close_issue` (`issue_crud.py` lines 93-107): looks the
issue up by id, raises `ValueError` when absent, and otherwise sets
`status = IssueStatus.CLOSED` unconditionally — the current status is
never inspected — then commits and returns the refreshed row. -/
def issueCrudCloseIssue (db : DB) (issue_id : Nat) : Except PyErr (DB × IssueRec) :=
  match findIssue db issue_id with
  | none => .error .valueError
  | some issue =>
    .ok ({db with issues :=
            db.issues.map (fun i =>
              if i.id == issue_id then {i with status := .CLOSED} else i)},
         {issue with status := .CLOSED})

/-- `PostCRUD.count_posts_by_issue` (`post_crud.py` lines 69-84):
count of (distinct) post rows of the issue; row ids are unique in this
store, so the count is the filtered length. -/
def countPostsByIssue (db : DB) (issue_id : Nat) : Nat :=
  (db.posts.filter (fun p => p.issue_id == issue_id)).length

/-- Number of OPEN issues a group currently has (the §3 invariant's
observable). -/
def openIssueCount (db : DB) (group_id : Nat) : Nat :=
  (db.issues.filter (fun i =>
    i.group_id == group_id && i.status == IssueStatus.OPEN)).length

/-- Errors surfaced by the HTTP routes (`HTTPException` status classes). -/
inductive RouteErr where
  | notFound
  | forbidden
  | capacityExceeded
  | internal
deriving DecidableEq, Repr

/-- `MAX_POSTS_PER_ISSUE` (`core/constants.py` line 11). -/
def MAX_POSTS_PER_ISSUE : Nat := 20

/-- The `create_new_issue` route (`api/routes/issues.py` lines 97-136):
requires a membership whose role is LEADER, then calls
`issue_crud.create` directly with the request's `issue_data` — there is
no check for an already-OPEN issue of the group. -/
def createNewIssueRoute (db : DB) (membership : Option (Nat × Bool))
    (group_id issue_number : Nat) (deadline_date : PyDate) (newId now : Nat) :
    DB × Except RouteErr IssueRec :=
  match membership with
  | none => (db, .error .notFound)
  | some (_, isLeader) =>
    if isLeader then
      let (db', row) := issueCrudCreate db group_id issue_number deadline_date newId now
      (db', .ok row)
    else (db, .error .forbidden)

/-- The `create_post` route (`api/routes/posts.py` lines 23-85):
membership check, current-issue check, then the content-count guard
against `MAX_POSTS_PER_ISSUE` — the guard runs before anything is
written, and a rejected request leaves the store untouched. -/
def createPostRoute (db : DB) (membership : Option Nat) (author_id : Nat)
    (content : String) (image_urls : List String) (newId now : Nat) :
    DB × Except RouteErr PostRec :=
  match membership with
  | none => (db, .error .notFound)
  | some group_id =>
    match getCurrentIssue db group_id with
    | none => (db, .error .notFound)
    | some current_issue =>
      if MAX_POSTS_PER_ISSUE ≤ countPostsByIssue db current_issue.id then
        (db, .error .capacityExceeded)
      else
        let row : PostRec :=
          ⟨newId, current_issue.id, author_id, content, image_urls, now⟩
        ({db with posts := db.posts ++ [row]}, .ok row)

/-- `DeadlineWorker._process_group_deadline` (`deadline_worker.py`
lines 32-55) for one group: fetch the current OPEN issue; when its
deadline has passed, `close_issue` (which commits) and then compute the
next deadline via `deadline_service.calculate_next_deadline(group.deadline_type)`.
That call raises `AttributeError` (see `calculateNextDeadline`), the
`except` block swallows it, and the new issue is never created — but the
close has already been committed. -/
def processGroupDeadline (db : DB) (group_id : Nat) (dt : DeadlineType)
    (today : PyDate) (newId now : Nat) : DB :=
  match getCurrentIssue db group_id with
  | none => db
  | some current_issue =>
    if isDeadlinePassed current_issue.deadline_date today then
      match issueCrudCloseIssue db current_issue.id with
      | .error _ => db
      | .ok (db', _) =>
        match calculateNextDeadline dt today with
        | .error _ => db'
        | .ok next_deadline =>
          (issueCrudCreate db' group_id (current_issue.issue_number + 1)
            next_deadline newId now).1
    else db

/-- States of the record store reachable from an empty store by the
operations that create or close issues: the group-setup endpoint
(`api/routes/family.py` `setup_family_group` — its body references the
function-local names `issue_crud` and `calculate_deadline_date` before
their line-86/89 bindings, so it raises `UnboundLocalError`, rolls back,
and never persists an issue), the leader's create-issue endpoint, and
the deadline sweep's per-group step. -/
inductive Reachable : DB → Prop where
  | init : Reachable dbEmpty
  | setup (db : DB) : Reachable db → Reachable db
  | leaderCreate (db : DB) (membership : Option (Nat × Bool))
      (group_id issue_number : Nat) (deadline_date : PyDate) (newId now : Nat) :
      Reachable db →
      Reachable (createNewIssueRoute db membership group_id issue_number
        deadline_date newId now).1
  | sweep (db : DB) (group_id : Nat) (dt : DeadlineType) (today : PyDate)
      (newId now : Nat) :
      Reachable db →
      Reachable (processGroupDeadline db group_id dt today newId now)

/-- Failure of the record store itself (`db.execute` raising). -/
inductive DbError where
  | failure
deriving DecidableEq, Repr

/-- `IssueCRUD.get` (`issue_crud.py` lines 31-40) with the outcome of
its `db.execute` query made explicit: the `try`/`except` wrapper turns
any storage exception into `None`. -/
def issueCrudGetOutcome (query : Except DbError (Option IssueRec)) : Option IssueRec :=
  match query with
  | .ok r => r
  | .error _ => none

/-- `IssueCRUD.get_current_issue` (`issue_crud.py` lines 42-60) with the
query outcome explicit: storage exceptions are logged and become `None`. -/
def issueCrudGetCurrentOutcome (query : Except DbError (Option IssueRec)) :
    Option IssueRec :=
  match query with
  | .ok r => r
  | .error _ => none

/-- `IssueCRUD.get_issues_by_group` (`issue_crud.py` lines 62-75) with
the query outcome explicit: storage exceptions become the empty list. -/
def issueCrudGetIssuesByGroupOutcome (query : Except DbError (List IssueRec)) :
    List IssueRec :=
  match query with
  | .ok r => r
  | .error _ => []

/-- The methods defined on the `IssueCRUD` class (`issue_crud.py`
lines 7-137) — the names Python attribute lookup on `issue_crud` can
resolve. -/
def issueCrudMethodNames : List String :=
  ["create", "get", "get_current_issue", "get_issues_by_group",
   "update", "close_issue", "delete", "count_posts_by_issue"]

/-- Python `hasattr`-style resolution on the `issue_crud` singleton. -/
def issueCrudHasAttr (name : String) : Bool :=
  issueCrudMethodNames.contains name

/-- The set the pending-book sweep is specified to enqueue, in the
spec's words (§4.6): every CLOSED issue lacking a COMPLETED Book. -/
def closedIssuesWithoutCompletedBook (db : DB) : List IssueRec :=
  db.issues.filter (fun i =>
    i.status == IssueStatus.CLOSED &&
      !(db.books.any (fun b =>
        b.issue_id == i.id && b.production_status == ProductionStatus.COMPLETED)))

/-- `PDFWorker.check_pending_issues` (`pdf_worker.py` lines 70-82),
returning the list of issue ids put on the queue.  The body evaluates
`issue_crud.get_issues_without_books(db)`; `IssueCRUD` defines no such
method, so the attribute lookup raises `AttributeError`, the
`except Exception` block logs it, and nothing is enqueued. -/
def checkPendingIssues (db : DB) : List Nat :=
  if issueCrudHasAttr "get_issues_without_books" then
    (closedIssuesWithoutCompletedBook db).map (fun i => i.id)
  else []

/-- Insertion step for `sortPostsDesc`. -/
def insertPostDesc (p : PostRec) : List PostRec → List PostRec
  | [] => [p]
  | q :: qs =>
    if q.created_at < p.created_at then p :: q :: qs
    else q :: insertPostDesc p qs

/-- A stable sort of posts by `created_at` descending — the embedding
of `ORDER BY created_at DESC` picking one of the orders the store may
return (see `postsQueryResult` for the full nondeterministic contract). -/
def sortPostsDesc : List PostRec → List PostRec
  | [] => []
  | p :: ps => insertPostDesc p (sortPostsDesc ps)

/-- `PostCRUD.get_posts_by_issue` (`post_crud.py` lines 45-67),
fault-free path with the default arguments `skip=0, limit=20` used by
`PDFGenerationService.generate_issue_pdf`: the issue's posts ordered by
`created_at` descending, truncated to 20 rows. -/
def getPostsByIssueForPdf (db : DB) (issue_id : Nat) : List PostRec :=
  (sortPostsDesc (db.posts.filter (fun p => p.issue_id == issue_id))).take 20

/-- The contract of the `get_posts_by_issue` query
(`select(Post).where(issue_id).order_by(desc(Post.created_at)).offset(skip).limit(limit)`):
the store may hand back any permutation of the issue's posts that is
weakly sorted by `created_at` descending — the query has no secondary
sort key, so the relative order of posts with equal `created_at` is not
determined — windowed by `skip`/`limit`. -/
def postsQueryResult (db : DB) (issue_id skip limit : Nat) (res : List PostRec) : Prop :=
  ∃ l : List PostRec,
    l.Perm (db.posts.filter (fun p => p.issue_id == issue_id)) ∧
    l.Pairwise (fun a b => b.created_at ≤ a.created_at) ∧
    res = (l.drop skip).take limit

/-- External collaborators of the PDF pipeline: the recipient lookup
(`issue.group.recipient`), the renderer (`pdf_generator.generate_pdf`)
and the artifact store (`storage_service.upload_book_pdf`).  Rendering
and uploading may raise; their outcomes are supplied by the environment. -/
structure PdfEnv where
  recipientName : Nat → Option String
  renderPdf : String → Nat → PyDate → List PostRec → Except PyErr (List Nat)
  uploadPdf : Nat → Nat → List Nat → Except PyErr String

/-- `PDFGenerationService.generate_issue_pdf` (`pdf_service.py`
lines 17-99): look up the issue (ValueError if absent), read its posts
(ValueError if there are none — the NotReady case), resolve the
recipient, render, upload, and only then write the Book row —
updating an existing row or inserting a new one — with
`production_status=COMPLETED` and the artifact `pdf_url`.  On any
exception the function logs and re-raises; no write has happened yet at
that point, so the store comes back unchanged, and in particular no
`FAILED` status and no partial `pdf_url` is ever recorded. -/
def generateIssuePdf (env : PdfEnv) (db : DB) (issue_id newBookId : Nat) :
    DB × Except PyErr String :=
  match findIssue db issue_id with
  | none => (db, .error .valueError)
  | some issue =>
    let posts := getPostsByIssueForPdf db issue_id
    if posts.isEmpty then (db, .error .valueError)
    else
      match env.recipientName issue.group_id with
      | none => (db, .error .valueError)
      | some recipient_name =>
        match env.renderPdf recipient_name issue.issue_number issue.deadline_date posts with
        | .error e => (db, .error e)
        | .ok pdf_bytes =>
          match env.uploadPdf issue.group_id issue_id pdf_bytes with
          | .error e => (db, .error e)
          | .ok pdf_url =>
            match findBookByIssue db issue_id with
            | some existing_book =>
              ({db with books := db.books.map (fun b =>
                  if b.id == existing_book.id then
                    {b with pdf_url := some pdf_url,
                            production_status := .COMPLETED}
                  else b)},
               .ok pdf_url)
            | none =>
              ({db with books :=
                  db.books ++ [⟨newBookId, issue_id, some pdf_url, .COMPLETED⟩]},
               .ok pdf_url)

/-- `PDFWorker._generate_single_pdf` (`pdf_worker.py` lines 46-68):
skip when the issue is missing or a COMPLETED book already exists,
otherwise run `generate_issue_pdf`; the surrounding `try`/`except`
swallows every exception, so a failed run leaves the store exactly as
`generate_issue_pdf` left it — which on failure is unchanged. -/
def generateSinglePdf (env : PdfEnv) (db : DB) (issue_id newBookId : Nat) : DB :=
  match findIssue db issue_id with
  | none => db
  | some _ =>
    match findBookByIssue db issue_id with
    | some existing_book =>
      if existing_book.production_status == ProductionStatus.COMPLETED then db
      else (generateIssuePdf env db issue_id newBookId).1
    | none => (generateIssuePdf env db issue_id newBookId).1

/-- Python list subscript `l[i]`: raises `IndexError` out of range. -/
def pyIndex {α : Type} (l : List α) (i : Nat) : Except PyErr α :=
  match l.get? i with
  | some x => .ok x
  | none => .error .indexError

/-- A flowable appended by `_create_image_layout`: the single full-width
image, the side-by-side pair, or the 2×2 grid whose cells may be blank
(`""` in the source). -/
inductive LayoutElem where
  | singleImage (d : Nat)
  | sideBySide (a b : Nat)
  | grid (c00 c01 c10 c11 : Option Nat)
deriving DecidableEq, Repr

/-- `FamilyNewsPDFGenerator._download_and_resize_image` (`pdf_utils.py`
lines 245-285): fetch, EXIF-correct, RGB-normalize and bound the image;
every exception is caught and turned into `None`.  The network/decode
outcome is the oracle `fetch`. -/
def downloadAndResizeImage (fetch : String → Option Nat) (image_url : String) :
    Option Nat :=
  fetch image_url

/-- `FamilyNewsPDFGenerator._create_image_layout` (`pdf_utils.py`
lines 181-243).  `processed_images` keeps only the successful downloads
(failures are skipped with `continue`), but the branch selected by
`image_count = len(image_urls)` indexes `processed_images` positionally:
`processed_images[1]` in the two-image branch and `processed_images[2]`
in the grid branch raise `IndexError` when downloads failed, aborting
the whole layout.  Only index 3 is guarded by a length check. -/
def createImageLayout (fetch : String → Option Nat) (image_urls : List String) :
    Except PyErr (List LayoutElem) :=
  let image_count := image_urls.length
  let processed_images : List Nat :=
    (image_urls.take 4).filterMap (downloadAndResizeImage fetch)
  if processed_images.isEmpty then .ok []
  else if image_count == 1 then
    match pyIndex processed_images 0 with
    | .error e => .error e
    | .ok a => .ok [.singleImage a]
  else if image_count == 2 then
    match pyIndex processed_images 0 with
    | .error e => .error e
    | .ok a =>
      match pyIndex processed_images 1 with
      | .error e => .error e
      | .ok b => .ok [.sideBySide a b]
  else if 3 ≤ image_count then
    let cells : List (Option Nat) :=
      if image_count == 3 then processed_images.map some ++ [none]
      else processed_images.map some
    match pyIndex cells 0 with
    | .error e => .error e
    | .ok c00 =>
      match pyIndex cells 1 with
      | .error e => .error e
      | .ok c01 =>
        match pyIndex cells 2 with
        | .error e => .error e
        | .ok c10 =>
          let c11 : Option Nat :=
            if 3 < cells.length then (cells.get? 3).join else none
          .ok [.grid c00 c01 c10 c11]
  else .ok []

/-- Posts of a list all carry pairwise distinct creation times. -/
def postsCreatedAtDistinct (l : List PostRec) : Prop :=
  l.Pairwise (fun a b => a.created_at ≠ b.created_at)

/-- A store holding two OPEN issues of group 1, produced by two calls of
the leader create-issue endpoint. -/
def twoOpenDb : DB :=
  (createNewIssueRoute
    (createNewIssueRoute dbEmpty (some (1, true)) 1 1 ⟨2024, 3, 10⟩ 1 0).1
    (some (1, true)) 1 2 ⟨2024, 4, 14⟩ 2 1).1

/-- A store with one CLOSED issue (id 5) and no book rows at all. -/
def dbC3 : DB := ⟨[⟨5, 1, 3, ⟨2024, 3, 10⟩, .CLOSED, 0⟩], [], []⟩

/-- A store with a CLOSED issue (id 5) that has zero posts and a
PENDING book (id 9). -/
def dbC4 : DB :=
  ⟨[⟨5, 1, 3, ⟨2024, 3, 10⟩, .CLOSED, 0⟩], [], [⟨9, 5, none, .PENDING⟩]⟩

/-- A benign environment for the PDF pipeline: recipient resolves,
rendering and uploading succeed. -/
def envC4 : PdfEnv :=
  ⟨fun _ => some "recipient", fun _ _ _ _ => .ok [1], fun _ _ _ => .ok "url"⟩

/-- Download outcomes for the C5 scenario: of the four image
references, `u1` and `u2` fetch successfully, `u3` and `u4` fail. -/
def fetchC5 : String → Option Nat :=
  fun u => if u == "u1" then some 1 else if u == "u2" then some 2 else none

/-- A store whose only issue (id 1) is already CLOSED. -/
def dbC6 : DB := ⟨[⟨1, 1, 1, ⟨2024, 3, 10⟩, .CLOSED, 0⟩], [], []⟩

/-- A store whose only issue (id 2) is already PUBLISHED. -/
def dbC6w : DB := ⟨[⟨2, 1, 1, ⟨2024, 3, 10⟩, .PUBLISHED, 0⟩], [], []⟩

/-- A store with one OPEN issue (id 1) already holding
`MAX_POSTS_PER_ISSUE` posts. -/
def dbC8 : DB :=
  ⟨[⟨1, 1, 1, ⟨2024, 3, 10⟩, .OPEN, 0⟩],
   (List.range 20).map (fun k => ⟨k, 1, 1, "post", [], k⟩), []⟩

/-- Two posts of issue 1 sharing the same creation time. -/
def postA : PostRec := ⟨1, 1, 10, "a", [], 5⟩

/-- Two posts of issue 1 sharing the same creation time. -/
def postB : PostRec := ⟨2, 1, 11, "b", [], 5⟩

/-- A store whose issue-1 posts have a creation-time tie. -/
def dbC9 : DB := ⟨[], [postA, postB], []⟩

/-- A post of issue 1 created at time 1. -/
def postW1 : PostRec := ⟨1, 1, 10, "a", [], 1⟩

/-- A post of issue 1 created at time 2. -/
def postW2 : PostRec := ⟨2, 1, 11, "b", [], 2⟩

/-- A store whose issue-1 posts have distinct creation times. -/
def dbC9w : DB := ⟨[], [postW1, postW2], []⟩

/-- `pyWeekday` is a residue mod 7. -/
theorem pyWeekday_lt_7 (dt : PyDate) : pyWeekday dt < 7 :=
  Nat.mod_lt _ (by omega)

/-- Every month of every year has at least 28 days. -/
theorem daysInMonth_ge_28 (y m : Nat) : 28 ≤ daysInMonth y m := by
  unfold daysInMonth
  split
  · split <;> omega
  · split <;> omega

/-- `addDays` that stays inside the month just moves the day of month. -/
theorem addDays_same_month (dt : PyDate) (k : Nat)
    (h : dt.day + k ≤ daysInMonth dt.year dt.month) :
    addDays dt k = ⟨dt.year, dt.month, dt.day + k⟩ := by
  unfold addDays addDaysFuel
  split
  · next hk => cases dt; simp_all
  · rfl

/-- `toordinal` is linear in the day-of-month field. -/
theorem toordinal_day_add (y m a b : Nat) :
    toordinal ⟨y, m, a + b⟩ = toordinal ⟨y, m, a⟩ + b := by
  unfold toordinal
  dsimp only
  omega

/-- Shifting the day of month shifts the weekday mod 7. -/
theorem pyWeekday_day_add (y m k : Nat) :
    pyWeekday ⟨y, m, 1 + k⟩ = (pyWeekday ⟨y, m, 1⟩ + k) % 7 := by
  unfold pyWeekday
  rw [toordinal_day_add y m 1 k]
  omega

/-- The day `1 + (6 - w) % 7 + 7j` (first Sunday of the month plus `j`
weeks) falls on a Sunday. -/
theorem sunday_day_weekday (y m j : Nat) :
    pyWeekday ⟨y, m, 1 + (6 - pyWeekday ⟨y, m, 1⟩) % 7 + 7 * j⟩ = 6 := by
  have hw : pyWeekday ⟨y, m, 1⟩ < 7 := pyWeekday_lt_7 _
  have h : 1 + (6 - pyWeekday ⟨y, m, 1⟩) % 7 + 7 * j
      = 1 + ((6 - pyWeekday ⟨y, m, 1⟩) % 7 + 7 * j) := by omega
  rw [h, pyWeekday_day_add]
  omega

/-- Python date order is total: `¬ (a <= b)` gives `b < a`. -/
theorem not_dateLe_lt (a b : PyDate) (h : ¬ dateLe a b) : dateLt b a := by
  unfold dateLe at h
  unfold dateLt
  omega

/-- One unfolding step of `_get_nth_sunday_of_month`. -/
theorem getNthSundayOfMonth_succ (fuel : Nat) (d : PyDate) (n : Nat) :
    getNthSundayOfMonth (fuel + 1) d n =
      if (addDays (addDays ⟨d.year, d.month, 1⟩
            ((6 - pyWeekday ⟨d.year, d.month, 1⟩) % 7)) (7 * (n - 1))).month
          ≠ d.month then
        getNthSundayOfMonth fuel
          ⟨if d.month < 12 then d.year else d.year + 1,
           if d.month < 12 then d.month + 1 else 1, 1⟩ n
      else if dateLe (addDays (addDays ⟨d.year, d.month, 1⟩
            ((6 - pyWeekday ⟨d.year, d.month, 1⟩) % 7)) (7 * (n - 1))) d then
        getNthSundayOfMonth fuel
          ⟨if d.month < 12 then d.year else d.year + 1,
           if d.month < 12 then d.month + 1 else 1, 1⟩ n
      else some (addDays (addDays ⟨d.year, d.month, 1⟩
            ((6 - pyWeekday ⟨d.year, d.month, 1⟩) % 7)) (7 * (n - 1))) := rfl

/-- For week numbers 2 and 4 the computed nth Sunday stays inside the
reference month, on a day between 8 and 28. -/
theorem nth_sunday_in_month (y m n : Nat) (hn : n = 2 ∨ n = 4) :
    addDays (addDays ⟨y, m, 1⟩ ((6 - pyWeekday ⟨y, m, 1⟩) % 7)) (7 * (n - 1)) =
      ⟨y, m, 1 + (6 - pyWeekday ⟨y, m, 1⟩) % 7 + 7 * (n - 1)⟩ ∧
    8 ≤ 1 + (6 - pyWeekday ⟨y, m, 1⟩) % 7 + 7 * (n - 1) ∧
    1 + (6 - pyWeekday ⟨y, m, 1⟩) % 7 + 7 * (n - 1) ≤ 28 := by
  have hw : pyWeekday ⟨y, m, 1⟩ < 7 := pyWeekday_lt_7 _
  have h28 := daysInMonth_ge_28 y m
  have hk : (6 - pyWeekday ⟨y, m, 1⟩) % 7 ≤ 6 := by omega
  have h1 : addDays ⟨y, m, 1⟩ ((6 - pyWeekday ⟨y, m, 1⟩) % 7)
      = ⟨y, m, 1 + (6 - pyWeekday ⟨y, m, 1⟩) % 7⟩ :=
    addDays_same_month ⟨y, m, 1⟩ _ (by dsimp; omega)
  have h2 : addDays ⟨y, m, 1 + (6 - pyWeekday ⟨y, m, 1⟩) % 7⟩ (7 * (n - 1))
      = ⟨y, m, 1 + (6 - pyWeekday ⟨y, m, 1⟩) % 7 + 7 * (n - 1)⟩ :=
    addDays_same_month _ _ (by dsimp; rcases hn with h | h <;> subst h <;> omega)
  rw [h1, h2]
  refine ⟨rfl, ?_, ?_⟩ <;> rcases hn with h | h <;> subst h <;> omega

/-- With two units of fuel `_get_nth_sunday_of_month` always returns a
date that is a Sunday and strictly after the reference date (week
numbers 2 and 4). -/
theorem getNthSundayOfMonth_correct (fuel : Nat) (d : PyDate) (n : Nat)
    (hv : ValidDate d) (hn : n = 2 ∨ n = 4) :
    ∃ s, getNthSundayOfMonth (fuel + 2) d n = some s ∧
      pyWeekday s = 6 ∧ dateLt d s := by
  obtain ⟨y, m, day⟩ := d
  unfold ValidDate at hv
  obtain ⟨hy, hm1, hm2, hday1, hday2⟩ := hv
  obtain ⟨heq, hD8, hD28⟩ := nth_sunday_in_month y m n hn
  rw [show fuel + 2 = fuel + 1 + 1 from rfl, getNthSundayOfMonth_succ]
  dsimp only
  rw [heq, if_neg (show ¬ ((⟨y, m, 1 + (6 - pyWeekday ⟨y, m, 1⟩) % 7 + 7 * (n - 1)⟩ : PyDate).month ≠ m) from by dsimp; omega)]
  by_cases hle : dateLe ⟨y, m, 1 + (6 - pyWeekday ⟨y, m, 1⟩) % 7 + 7 * (n - 1)⟩ ⟨y, m, day⟩
  · rw [if_pos hle, getNthSundayOfMonth_succ]
    by_cases hm12 : m < 12
    · dsimp only
      simp only [if_pos hm12]
      obtain ⟨heq', hD8', hD28'⟩ := nth_sunday_in_month y (m + 1) n hn
      rw [heq', if_neg (show ¬ ((⟨y, m + 1, 1 + (6 - pyWeekday ⟨y, m + 1, 1⟩) % 7 + 7 * (n - 1)⟩ : PyDate).month ≠ (m + 1)) from by dsimp; omega)]
      rw [if_neg (show ¬ dateLe ⟨y, m + 1, 1 + (6 - pyWeekday ⟨y, m + 1, 1⟩) % 7 + 7 * (n - 1)⟩ ⟨y, m + 1, 1⟩ from by unfold dateLe; dsimp; omega)]
      exact ⟨_, rfl, sunday_day_weekday y (m + 1) (n - 1),
        Or.inr ⟨rfl, Or.inl (by dsimp only; omega)⟩⟩
    · dsimp only
      simp only [if_neg hm12]
      obtain ⟨heq', hD8', hD28'⟩ := nth_sunday_in_month (y + 1) 1 n hn
      rw [heq', if_neg (show ¬ ((⟨y + 1, 1, 1 + (6 - pyWeekday ⟨y + 1, 1, 1⟩) % 7 + 7 * (n - 1)⟩ : PyDate).month ≠ 1) from by dsimp; omega)]
      rw [if_neg (show ¬ dateLe ⟨y + 1, 1, 1 + (6 - pyWeekday ⟨y + 1, 1, 1⟩) % 7 + 7 * (n - 1)⟩ ⟨y + 1, 1, 1⟩ from by unfold dateLe; dsimp; omega)]
      exact ⟨_, rfl, sunday_day_weekday (y + 1) 1 (n - 1),
        Or.inl (by dsimp only; omega)⟩
  · rw [if_neg hle]
    exact ⟨_, rfl, sunday_day_weekday y m (n - 1), not_dateLe_lt _ _ hle⟩

/-- Claim C1: for the second-Sunday policy and reference date
2024-03-01, `DeadlineService.calculate_next_deadline` is claimed to
return 2024-03-10.  The service body compares against
`DeadlineType.SECOND_WEEK`, a member the `DeadlineType` enum of
`models/family.py` does not have, so the call raises `AttributeError`
instead; the helper `_get_nth_sunday_of_month` it was meant to dispatch
to does compute 2024-03-10 from that reference date. -/
theorem C1_second_sunday_of_march_2024 :
    calculateNextDeadline DeadlineType.SECOND_SUNDAY ⟨2024, 3, 1⟩
      = Except.error PyErr.attributeError ∧
    getNthSundayOfMonth 100 ⟨2024, 3, 1⟩ 2 = some ⟨2024, 3, 10⟩ :=
  ⟨rfl, rfl⟩

/-- Claim C7: the computed next deadline is claimed to fall on a Sunday
strictly after the reference date, for both policies.
`calculate_next_deadline` never returns a date at all — the
`DeadlineType.SECOND_WEEK` attribute access raises `AttributeError` on
every call — while the underlying `_get_nth_sunday_of_month` (week
numbers 2 and 4, two units of fuel) does satisfy the claimed property
for every valid reference date. -/
theorem C7_deadline_sunday_strictly_after :
    (∀ (dt : DeadlineType) (d : PyDate),
      calculateNextDeadline dt d = Except.error PyErr.attributeError) ∧
    (∀ (fuel : Nat) (d : PyDate) (n : Nat), ValidDate d → n = 2 ∨ n = 4 →
      ∃ s, getNthSundayOfMonth (fuel + 2) d n = some s ∧
        pyWeekday s = 6 ∧ dateLt d s) :=
  ⟨fun _ _ => rfl, getNthSundayOfMonth_correct⟩

/-- Witness for C7 at the concrete input 2024-03-01 with week number 2. -/
theorem C7_witness :
    ValidDate ⟨2024, 3, 1⟩ ∧ ((2 : Nat) = 2 ∨ (2 : Nat) = 4) ∧
    calculateNextDeadline DeadlineType.FOURTH_SUNDAY ⟨2024, 3, 1⟩
      = Except.error PyErr.attributeError ∧
    ∃ s, getNthSundayOfMonth (0 + 2) ⟨2024, 3, 1⟩ 2 = some s ∧
      pyWeekday s = 6 ∧ dateLt ⟨2024, 3, 1⟩ s :=
  ⟨by decide, Or.inl rfl,
   C7_deadline_sunday_strictly_after.1 DeadlineType.FOURTH_SUNDAY ⟨2024, 3, 1⟩,
   C7_deadline_sunday_strictly_after.2 0 ⟨2024, 3, 1⟩ 2 (by decide) (Or.inl rfl)⟩

/-- Claim C2 (counterexample): a store holding two OPEN issues of the
same group is reachable — two runs of the leader create-issue endpoint
suffice, because `IssueCRUD.create` never checks for an existing OPEN
issue — so the zero-or-one OPEN invariant does not hold in every
reachable state. -/
theorem C2_counterexample_two_open_reachable :
    Reachable twoOpenDb ∧ openIssueCount twoOpenDb 1 = 2 := by
  constructor
  · exact Reachable.leaderCreate _ (some (1, true)) 1 2 ⟨2024, 4, 14⟩ 2 1
      (Reachable.leaderCreate dbEmpty (some (1, true)) 1 1 ⟨2024, 3, 10⟩ 1 0
        Reachable.init)
  · rfl

/-- Claim C2 (amended): the zero-or-one-OPEN invariant is not enforced
by the creation paths — every `IssueCRUD.create` call unconditionally
adds one more OPEN issue for the group, whatever the store already
contains. -/
theorem C2_amended_create_increments_open_count (db : DB)
    (group_id issue_number : Nat) (deadline_date : PyDate) (newId now : Nat) :
    openIssueCount
        (issueCrudCreate db group_id issue_number deadline_date newId now).1 group_id
      = openIssueCount db group_id + 1 := by
  unfold issueCrudCreate openIssueCount
  simp

/-- Claim C3: one run of the pending-book sweep is claimed to enqueue a
job for every CLOSED issue lacking a COMPLETED book.
`PDFWorker.check_pending_issues` calls
`issue_crud.get_issues_without_books`, a method `IssueCRUD` does not
define; the `AttributeError` is swallowed by the `except` block and the
sweep enqueues nothing on every store — in particular on a store that
does contain a CLOSED issue with no book. -/
theorem C3_pending_sweep_enqueues_nothing :
    (∀ db : DB, checkPendingIssues db = []) ∧
    closedIssuesWithoutCompletedBook dbC3
      = [⟨5, 1, 3, ⟨2024, 3, 10⟩, .CLOSED, 0⟩] ∧
    checkPendingIssues dbC3 = [] :=
  ⟨fun _ => rfl, rfl, rfl⟩

/-- Claim C4 (counterexample): processing an issue whose aggregation
raises (here: a CLOSED issue with zero content items) leaves its Book
in the PENDING state it already had — the pipeline never writes
`production_status=FAILED`. -/
theorem C4_counterexample_no_failed_written :
    generateSinglePdf envC4 dbC4 5 99 = dbC4 ∧
    (findBookByIssue (generateSinglePdf envC4 dbC4 5 99) 5).map
        BookRec.production_status = some ProductionStatus.PENDING ∧
    (generateIssuePdf envC4 dbC4 5 99).2 = Except.error PyErr.valueError :=
  ⟨rfl, rfl, rfl⟩

/-- Claim C4 (amended): whenever aggregation, rendering or uploading
raises during `generate_issue_pdf`, the store comes back exactly
unchanged — no `pdf_url` is stored, no status (FAILED or otherwise) is
written, and thus no Book is ever observable as COMPLETED with a
half-written state. -/
theorem C4_amended_failure_leaves_store_unchanged (env : PdfEnv) (db : DB)
    (issue_id newBookId : Nat) (db' : DB) (e : PyErr)
    (h : generateIssuePdf env db issue_id newBookId = (db', Except.error e)) :
    db' = db := by
  have hc : (generateIssuePdf env db issue_id newBookId).1 = db ∨
      (generateIssuePdf env db issue_id newBookId).2.isOk = true := by
    unfold generateIssuePdf
    rcases hi : findIssue db issue_id with _ | issue
    · simp
    · rcases hp : getPostsByIssueForPdf db issue_id with _ | ⟨q, qs⟩ <;> simp only [hp]
      · simp
      · rcases hr : env.recipientName issue.group_id with _ | rname <;> simp only [hr]
        · simp
        · rcases hren : env.renderPdf rname issue.issue_number issue.deadline_date
              (q :: qs) with e' | bytes <;> simp only [hren]
          · simp
          · rcases hup : env.uploadPdf issue.group_id issue_id bytes
                with e' | url <;> simp only [hup]
            · simp
            · rcases hb : findBookByIssue db issue_id with _ | book <;>
                simp only [hb] <;> simp [Except.isOk, Except.toBool]
  rcases hc with hdb | hok
  · rw [h] at hdb
    exact hdb
  · rw [h] at hok
    simp [Except.isOk, Except.toBool] at hok

/-- Witness for the amended C4 at a concrete failing run (zero content
items, so aggregation raises the NotReady `ValueError`). -/
theorem C4_amended_witness :
    generateIssuePdf envC4 dbC4 5 99 = (dbC4, Except.error PyErr.valueError) ∧
    dbC4 = dbC4 :=
  ⟨rfl, C4_amended_failure_leaves_store_unchanged envC4 dbC4 5 99 dbC4
    PyErr.valueError rfl⟩

/-- Claim C5: with four image references of which exactly two fail to
download, `_create_image_layout` is claimed to complete with the two
fetched images placed in the grid.  Instead the grid branch evaluates
`processed_images[2]` on the two-element success list and raises
`IndexError`, aborting the layout (and with it the whole document). -/
theorem C5_two_failures_raise_index_error :
    (["u1", "u2", "u3", "u4"].take 4).filterMap (downloadAndResizeImage fetchC5)
      = [1, 2] ∧
    createImageLayout fetchC5 ["u1", "u2", "u3", "u4"]
      = Except.error PyErr.indexError :=
  ⟨rfl, rfl⟩

/-- Claim C6 (counterexample): `IssueCRUD.close_issue` called on an
issue that is already CLOSED does not fail — it succeeds and returns
the row, so the claimed already-CLOSED/PUBLISHED rejection does not
exist. -/
theorem C6_counterexample_close_closed_succeeds :
    issueCrudCloseIssue dbC6 1
      = Except.ok (dbC6, ⟨1, 1, 1, ⟨2024, 3, 10⟩, .CLOSED, 0⟩) :=
  rfl

/-- Claim C6 (amended): `close_issue` fails only when the issue id does
not resolve; for any existing issue — OPEN, CLOSED or PUBLISHED alike —
it unconditionally sets `status=CLOSED` and succeeds, so repeated and
backward transitions are accepted. -/
theorem C6_amended_close_unconditional (db : DB) (issue_id : Nat)
    (issue : IssueRec) (h : findIssue db issue_id = some issue) :
    issueCrudCloseIssue db issue_id =
      Except.ok
        ({db with issues := db.issues.map (fun i =>
            if i.id == issue_id then {i with status := .CLOSED} else i)},
         {issue with status := .CLOSED}) := by
  unfold issueCrudCloseIssue
  rw [h]

/-- Witness for the amended C6: closing a PUBLISHED issue succeeds and
moves it backward to CLOSED. -/
theorem C6_amended_witness :
    findIssue dbC6w 2 = some ⟨2, 1, 1, ⟨2024, 3, 10⟩, .PUBLISHED, 0⟩ ∧
    issueCrudCloseIssue dbC6w 2
      = Except.ok ((⟨[⟨2, 1, 1, ⟨2024, 3, 10⟩, .CLOSED, 0⟩], [], []⟩ : DB),
          ⟨2, 1, 1, ⟨2024, 3, 10⟩, .CLOSED, 0⟩) :=
  ⟨rfl, C6_amended_close_unconditional dbC6w 2 ⟨2, 1, 1, ⟨2024, 3, 10⟩, .PUBLISHED, 0⟩ rfl⟩

/-- Claim C8: once an OPEN issue holds `MAX_POSTS_PER_ISSUE` (= 20)
posts, the create-post route rejects any further item with the capacity
error before anything is written, leaving the stored content unchanged. -/
theorem C8_capacity_rejects_without_persisting (db : DB)
    (group_id author_id : Nat) (content : String) (image_urls : List String)
    (newId now : Nat) (issue : IssueRec)
    (hcur : getCurrentIssue db group_id = some issue)
    (hfull : MAX_POSTS_PER_ISSUE ≤ countPostsByIssue db issue.id) :
    createPostRoute db (some group_id) author_id content image_urls newId now
      = (db, Except.error RouteErr.capacityExceeded) := by
  unfold createPostRoute
  simp only [hcur]
  rw [if_pos hfull]

/-- Witness for C8: a store whose current issue already holds 20 posts
rejects the 21st. -/
theorem C8_witness :
    getCurrentIssue dbC8 1 = some ⟨1, 1, 1, ⟨2024, 3, 10⟩, .OPEN, 0⟩ ∧
    MAX_POSTS_PER_ISSUE ≤ countPostsByIssue dbC8 1 ∧
    createPostRoute dbC8 (some 1) 7 "one more" [] 100 100
      = (dbC8, Except.error RouteErr.capacityExceeded) :=
  ⟨rfl, by decide,
   C8_capacity_rejects_without_persisting dbC8 1 7 "one more" [] 100 100
     ⟨1, 1, 1, ⟨2024, 3, 10⟩, .OPEN, 0⟩ rfl (by decide)⟩

/-- Claim C10: the issue lookup operations swallow storage errors —
`IssueCRUD.get` and `IssueCRUD.get_current_issue` return `None`, and
`IssueCRUD.get_issues_by_group` returns `[]`, whenever the underlying
query raises, which is exactly what they return when no record matches. -/
theorem C10_storage_error_indistinguishable_from_absence (e : DbError) :
    issueCrudGetOutcome (Except.error e) = none ∧
    issueCrudGetOutcome (Except.error e) = issueCrudGetOutcome (Except.ok none) ∧
    issueCrudGetCurrentOutcome (Except.error e) = none ∧
    issueCrudGetCurrentOutcome (Except.error e)
      = issueCrudGetCurrentOutcome (Except.ok none) ∧
    issueCrudGetIssuesByGroupOutcome (Except.error e) = [] ∧
    issueCrudGetIssuesByGroupOutcome (Except.error e)
      = issueCrudGetIssuesByGroupOutcome (Except.ok []) :=
  ⟨rfl, rfl, rfl, rfl, rfl, rfl⟩

/-- Claim C9 (counterexample): the aggregation query orders only by
`created_at` (descending) with no identity tie-break, so for a store
with two posts sharing a creation time both interleavings are valid
query results — the sequence handed to the renderer is not determined
by the stored content set. -/
theorem C9_counterexample_tie_order_not_determined :
    postsQueryResult dbC9 1 0 20 [postA, postB] ∧
    postsQueryResult dbC9 1 0 20 [postB, postA] ∧
    [postA, postB] ≠ [postB, postA] := by
  have hfilter : dbC9.posts.filter (fun p => p.issue_id == 1) = [postA, postB] := rfl
  refine ⟨⟨[postA, postB], ?_, ?_, rfl⟩, ⟨[postB, postA], ?_, ?_, rfl⟩, by decide⟩
  · rw [hfilter]
  · decide
  · rw [hfilter]
    exact List.Perm.swap postA postB []
  · decide

/-- Claim C9 (amended): the query is deterministic exactly when the
issue's posts have pairwise distinct creation times — then any two
valid query results coincide.  (With ties the order is unspecified, see
the counterexample.) -/
theorem C9_amended_deterministic_without_ties (db : DB)
    (issue_id skip limit : Nat) (res1 res2 : List PostRec)
    (hdist : postsCreatedAtDistinct
      (db.posts.filter (fun p => p.issue_id == issue_id)))
    (h1 : postsQueryResult db issue_id skip limit res1)
    (h2 : postsQueryResult db issue_id skip limit res2) :
    res1 = res2 := by
  obtain ⟨l1, hp1, hs1, rfl⟩ := h1
  obtain ⟨l2, hp2, hs2, rfl⟩ := h2
  suffices h : l1 = l2 by rw [h]
  have hd1 : l1.Pairwise (fun a b => a.created_at ≠ b.created_at) :=
    (hp1.pairwise_iff (fun h => Ne.symm h)).mpr hdist
  have hd2 : l2.Pairwise (fun a b => a.created_at ≠ b.created_at) :=
    (hp2.pairwise_iff (fun h => Ne.symm h)).mpr hdist
  have hlt1 : l1.Pairwise (fun a b => b.created_at < a.created_at) :=
    (hs1.and hd1).imp (fun h => by omega)
  have hlt2 : l2.Pairwise (fun a b => b.created_at < a.created_at) :=
    (hs2.and hd2).imp (fun h => by omega)
  have hperm : l1.Perm l2 := hp1.trans hp2.symm
  haveI : IsAntisymm PostRec (fun a b => b.created_at < a.created_at) :=
    ⟨fun a b hab hba => absurd hab (by omega)⟩
  exact List.eq_of_perm_of_sorted hperm hlt1 hlt2

/-- Witness for the amended C9 on a store with distinct creation times. -/
theorem C9_amended_witness :
    postsCreatedAtDistinct (dbC9w.posts.filter (fun p => p.issue_id == 1)) ∧
    postsQueryResult dbC9w 1 0 20 [postW2, postW1] ∧
    [postW2, postW1] = [postW2, postW1] := by
  have hq : postsQueryResult dbC9w 1 0 20 [postW2, postW1] := by
    refine ⟨[postW2, postW1], ?_, by decide, rfl⟩
    have hfilter : dbC9w.posts.filter (fun p => p.issue_id == 1)
        = [postW1, postW2] := rfl
    rw [hfilter]
    exact List.Perm.swap postW1 postW2 []
  exact ⟨by unfold postsCreatedAtDistinct; decide, hq,
    C9_amended_deterministic_without_ties dbC9w 1 0 20 [postW2, postW1]
      [postW2, postW1] (by unfold postsCreatedAtDistinct; decide) hq hq⟩
